import Mathlib

/-!
Verification development for the `basket` Rust client library
(`src/lib.rs`): a shallow embedding of its data model, wire
serialization, response-envelope decoding and the nine operations,
together with theorems about the client contract.

JSON values are modelled as a tree; JSON objects are association lists
in document order (request bodies and well-formed responses have no
duplicate keys, which is the regime the client operates in).  The HTTP
transport (`reqwest::Client`) is modelled as an oracle mapping the
built request to an outcome: a transport error, a response body that is
not valid JSON, or a parsed JSON body.
-/

/-- `Status` from `lib.rs`: the envelope status enum, deserialized from
the lowercase wire strings `ok` / `error` (`rename_all = "lowercase"`). -/
inductive Status where
  | Ok : Status
  | Error : Status
deriving DecidableEq, Repr

/-- `impl fmt::Display for Status`: renders the lowercase status word. -/
def Status.render : Status → String
  | .Ok => "ok"
  | .Error => "error"

/-- JSON values (`serde_json::Value`).  Numbers are modelled as integers:
no payload in this development is numeric, and floating point is out of
scope. -/
inductive Json where
  | null : Json
  | bool : Bool → Json
  | num : Int → Json
  | str : String → Json
  | arr : List Json → Json
  | obj : List (String × Json) → Json

/-- `Value::is_null`. -/
def Json.isNull : Json → Bool
  | .null => true
  | _ => false

/-- JSON string escaping as `serde_json::to_string` performs it for the
compact form. -/
def jsonEscapeChar (c : Char) : String :=
  if c = '"' then "\\\""
  else if c = '\\' then "\\\\"
  else if c = '\n' then "\\n"
  else if c = '\r' then "\\r"
  else if c = '\t' then "\\t"
  else if c.toNat < 32 then "\\u00" ++ (Nat.toDigits 16 c.toNat).asString
  else String.singleton c

/-- A JSON string literal in compact form. -/
def jsonQuote (s : String) : String :=
  "\"" ++ String.join (s.data.map jsonEscapeChar) ++ "\""

mutual

/-- Compact JSON rendering, as `serde_json::to_string` produces it:
no whitespace, keys and elements in document order. -/
def Json.compact : Json → String
  | .null => "null"
  | .bool true => "true"
  | .bool false => "false"
  | .num n => toString n
  | .str s => jsonQuote s
  | .arr xs => "[" ++ Json.compactList xs ++ "]"
  | .obj kvs => "\x7b" ++ Json.compactObj kvs ++ "\x7d"

/-- Comma-separated compact rendering of array elements. -/
def Json.compactList : List Json → String
  | [] => ""
  | [x] => Json.compact x
  | x :: y :: xs => Json.compact x ++ "," ++ Json.compactList (y :: xs)

/-- Comma-separated compact rendering of object members. -/
def Json.compactObj : List (String × Json) → String
  | [] => ""
  | [(k, v)] => jsonQuote k ++ ":" ++ Json.compact v
  | (k, v) :: m :: kvs =>
      jsonQuote k ++ ":" ++ Json.compact v ++ "," ++ Json.compactObj (m :: kvs)

end

/-- `ApiResponse` from `lib.rs`: the decoded response envelope.
`data` holds, via `#[serde(flatten)]`, every top-level member other
than `status`. -/
structure ApiResponse where
  status : Status
  data : Json

/-- Deserialization of `Status` (`rename_all = "lowercase"`): only the
exact lowercase wire strings are accepted; anything else is a serde
error. -/
def decodeStatus : Json → Option Status
  | .str s =>
      if s = "ok" then some Status.Ok
      else if s = "error" then some Status.Error
      else none
  | _ => none

/-- Deserialization of `ApiResponse`: the body must be a JSON object
with a `status` member holding a valid status; all remaining members
are folded into `data` as an object (serde's `flatten` into `Value`
collects leftover keys into a map, so `data` of a decoded envelope is
always an object, possibly empty). -/
def decodeApiResponse : Json → Option ApiResponse
  | .obj kvs =>
      match kvs.lookup "status" with
      | some sv =>
          (decodeStatus sv).map fun s =>
            ⟨s, Json.obj (kvs.filter fun kv => kv.1 ≠ "status")⟩
      | none => none
  | _ => none

/-- `impl fmt::Display for ApiResponse`: the compact JSON of `data`
when the status is `Ok` and `data` is non-null; otherwise the status
word. -/
def ApiResponse.render (r : ApiResponse) : String :=
  if r.status = Status.Ok ∧ ¬ r.data.isNull = true then r.data.compact
  else r.status.render

/-- `Format` from `lib.rs` (serialized as the variant name). -/
inductive Format where
  | H : Format
  | T : Format
deriving DecidableEq, Repr

/-- Wire form of `Format` (serde unit-variant serialization). -/
def Format.wire : Format → String
  | .H => "H"
  | .T => "T"

/-- `YesNo` from `lib.rs` (serialized as the variant name). -/
inductive YesNo where
  | Y : YesNo
  | N : YesNo
deriving DecidableEq, Repr

/-- Wire form of `YesNo`. -/
def YesNo.wire : YesNo → String
  | .Y => "Y"
  | .N => "N"

/-- `SubscribeOpts` from `lib.rs`: the all-optional options bag. -/
structure SubscribeOpts where
  format : Option Format := none
  country : Option String := none
  lang : Option String := none
  optin : Option YesNo := none
  source_url : Option String := none
  trigger_welcome : Option YesNo := none
  sync : Option YesNo := none

/-- `Subscribe` from `lib.rs`: the subscribe form payload
(`opts` is flattened). -/
structure Subscribe where
  email : String
  newsletters : String
  opts : Option SubscribeOpts

/-- `Unsubscribe` from `lib.rs`. -/
structure Unsubscribe where
  newsletters : String
  optout : YesNo

/-- `UpdateUserOpts` from `lib.rs`. -/
structure UpdateUserOpts where
  format : Option Format := none
  country : Option String := none
  lang : Option String := none
  optin : Option YesNo := none
  newsletters : Option String := none

/-- `UpdateUser` from `lib.rs` (`opts` is flattened). -/
structure UpdateUser where
  email : Option String
  opts : Option UpdateUserOpts

/-- An optional form field: emitted when present, omitted entirely when
`none` (serde's urlencoded serializer skips `None`). -/
def optField (k : String) : Option String → List (String × String)
  | some v => [(k, v)]
  | none => []

/-- Form serialization of `SubscribeOpts`, fields in declaration order,
`None` fields omitted. -/
def serializeSubscribeOpts (o : SubscribeOpts) : List (String × String) :=
  optField "format" (o.format.map Format.wire) ++
  optField "country" o.country ++
  optField "lang" o.lang ++
  optField "optin" (o.optin.map YesNo.wire) ++
  optField "source_url" o.source_url ++
  optField "trigger_welcome" (o.trigger_welcome.map YesNo.wire) ++
  optField "sync" (o.sync.map YesNo.wire)

/-- Form serialization of `Subscribe`: `email`, `newsletters`, then the
flattened options (nothing when `opts` is `None`). -/
def serializeSubscribe (s : Subscribe) : List (String × String) :=
  [("email", s.email), ("newsletters", s.newsletters)] ++
  (match s.opts with
   | some o => serializeSubscribeOpts o
   | none => [])

/-- Form serialization of `Unsubscribe`. -/
def serializeUnsubscribe (u : Unsubscribe) : List (String × String) :=
  [("newsletters", u.newsletters), ("optout", u.optout.wire)]

/-- Form serialization of `UpdateUserOpts`. -/
def serializeUpdateUserOpts (o : UpdateUserOpts) : List (String × String) :=
  optField "format" (o.format.map Format.wire) ++
  optField "country" o.country ++
  optField "lang" o.lang ++
  optField "optin" (o.optin.map YesNo.wire) ++
  optField "newsletters" o.newsletters

/-- Form serialization of `UpdateUser`: optional `email`, then the
flattened options. -/
def serializeUpdateUser (u : UpdateUser) : List (String × String) :=
  optField "email" u.email ++
  (match u.opts with
   | some o => serializeUpdateUserOpts o
   | none => [])

/-- A parsed absolute URL (`url::Url`), reduced to the parts the client
exercises: scheme, authority and path.  The configured base URLs carry
no query or fragment, and `Url::join` with the query-less references
used here yields a query-less result. -/
structure Url where
  scheme : String
  host : String
  path : String
deriving DecidableEq, Repr

/-- `url::Url::join` (RFC 3986 reference resolution) for the references
this client builds.  A reference starting with `/` is an absolute-path
reference: it replaces the base URL's entire path.  Otherwise the
reference is merged onto the base path with its last segment removed. -/
def joinUrl (base : Url) (ref : String) : Url :=
  if ref.data.head? = some '/' then
    { base with path := ref }
  else
    { base with
      path := (base.path.dropRightWhile fun c => c ≠ '/') ++ ref }

/-- `Basket` from `lib.rs`: the client state (`Arc` wrappers dropped;
the `reqwest::Client` handle is replaced by the transport oracle each
operation receives). -/
structure Basket where
  api_key : String
  basket_url : Url

/-- HTTP method of a built request. -/
inductive Method where
  | GET : Method
  | POST : Method
deriving DecidableEq, Repr

/-- The request an operation hands to the transport: method, resolved
URL, explicitly attached query parameters (`.query(...)`), and the
URL-encoded form body (`.form(...)`, empty for GETs). -/
structure Request where
  method : Method
  url : Url
  query : List (String × String)
  form : List (String × String)

/-- Outcome of the transport call: the send failed, or a response body
arrived that either is not valid JSON (`none`) or parses to a JSON
value. -/
inductive HttpOutcome where
  | transportFailure : String → HttpOutcome
  | response : Option Json → HttpOutcome

/-- The failure channel surfaced to callers (`failure::Error` in the
source, which can carry any of these).  `invalidTokenFormat` is
`BasketError::InvalidTokenFormat`; `transport` wraps a failed send;
`decode` wraps a `res.json::<ApiResponse>()` error; `domain` wraps an
`Error`-status envelope (which is `Fail` via its `Display`). -/
inductive BasketFailure where
  | invalidTokenFormat : BasketFailure
  | transport : String → BasketFailure
  | decode : BasketFailure
  | domain : ApiResponse → BasketFailure

/-- The response handling every operation repeats verbatim:
`match res.json::<ApiResponse>().await { Ok(r) if r.status == Status::Ok
=> Ok(..), Ok(r) => Err(r.into()), Err(e) => Err(e.into()) }`, preceded
by `?` on the send. -/
def handleResponse {α : Type} (onOk : ApiResponse → α) :
    HttpOutcome → Except BasketFailure α
  | .transportFailure m => .error (.transport m)
  | .response none => .error .decode
  | .response (some j) =>
      match decodeApiResponse j with
      | some r =>
          if r.status = Status.Ok then .ok (onOk r)
          else .error (.domain r)
      | none => .error .decode

/-- The request `Basket::subscribe` builds: POST to
`/news/subscribe/` joined on the base URL, no query, the `Subscribe`
form with newsletters joined by commas. -/
def Basket.subscribeRequest (b : Basket) (email : String)
    (newsletters : List String) (opts : Option SubscribeOpts) : Request :=
  { method := .POST
    url := joinUrl b.basket_url "/news/subscribe/"
    query := []
    form := serializeSubscribe
      ⟨email, String.intercalate "," newsletters, opts⟩ }

/-- `Basket::subscribe`. -/
def Basket.subscribe (b : Basket) (email : String)
    (newsletters : List String) (opts : Option SubscribeOpts)
    (transport : Request → HttpOutcome) : Except BasketFailure Unit :=
  handleResponse (fun _ => ())
    (transport (b.subscribeRequest email newsletters opts))

/-- The request `Basket::subscribe_private` builds: as `subscribe` but
with the API key attached as the `api-key` query parameter. -/
def Basket.subscribePrivateRequest (b : Basket) (email : String)
    (newsletters : List String) (opts : Option SubscribeOpts) : Request :=
  { method := .POST
    url := joinUrl b.basket_url "/news/subscribe/"
    query := [("api-key", b.api_key)]
    form := serializeSubscribe
      ⟨email, String.intercalate "," newsletters, opts⟩ }

/-- `Basket::subscribe_private`. -/
def Basket.subscribePrivate (b : Basket) (email : String)
    (newsletters : List String) (opts : Option SubscribeOpts)
    (transport : Request → HttpOutcome) : Except BasketFailure Unit :=
  handleResponse (fun _ => ())
    (transport (b.subscribePrivateRequest email newsletters opts))

/-- The request `Basket::unsubscribe` builds: POST to the token path
`/news/unsubscribe/{token}/`. -/
def Basket.unsubscribeRequest (b : Basket) (token : String)
    (newsletters : List String) (optout : YesNo) : Request :=
  { method := .POST
    url := joinUrl b.basket_url ("/news/unsubscribe/" ++ token ++ "/")
    query := []
    form := serializeUnsubscribe
      ⟨String.intercalate "," newsletters, optout⟩ }

/-- `Basket::unsubscribe`. -/
def Basket.unsubscribe (b : Basket) (token : String)
    (newsletters : List String) (optout : YesNo)
    (transport : Request → HttpOutcome) : Except BasketFailure Unit :=
  handleResponse (fun _ => ())
    (transport (b.unsubscribeRequest token newsletters optout))

/-- The request `Basket::get_user` builds: GET `/news/user/{token}/`. -/
def Basket.getUserRequest (b : Basket) (token : String) : Request :=
  { method := .GET
    url := joinUrl b.basket_url ("/news/user/" ++ token ++ "/")
    query := []
    form := [] }

/-- `Basket::get_user`: returns the envelope's `data` on `Ok`. -/
def Basket.getUser (b : Basket) (token : String)
    (transport : Request → HttpOutcome) : Except BasketFailure Json :=
  handleResponse (fun r => r.data) (transport (b.getUserRequest token))

/-- The request `Basket::update_user` builds: POST `/news/user/{token}/`
with the `UpdateUser` form, whose email is always set from the required
argument. -/
def Basket.updateUserRequest (b : Basket) (email : String) (token : String)
    (opts : Option UpdateUserOpts) : Request :=
  { method := .POST
    url := joinUrl b.basket_url ("/news/user/" ++ token ++ "/")
    query := []
    form := serializeUpdateUser ⟨some email, opts⟩ }

/-- `Basket::update_user`. -/
def Basket.updateUser (b : Basket) (email : String) (token : String)
    (opts : Option UpdateUserOpts)
    (transport : Request → HttpOutcome) : Except BasketFailure Unit :=
  handleResponse (fun _ => ())
    (transport (b.updateUserRequest email token opts))

/-- The request `Basket::newsletters` builds: GET `/news/newsletters/`. -/
def Basket.newslettersRequest (b : Basket) : Request :=
  { method := .GET
    url := joinUrl b.basket_url "/news/newsletters/"
    query := []
    form := [] }

/-- `Basket::newsletters`: returns the envelope's `data` on `Ok`. -/
def Basket.newsletters (b : Basket)
    (transport : Request → HttpOutcome) : Except BasketFailure Json :=
  handleResponse (fun r => r.data) (transport b.newslettersRequest)

/-- The request `Basket::debug_user` builds: GET `/news/debug-user/`
with `email` and `supertoken` query parameters. -/
def Basket.debugUserRequest (b : Basket) (email : String)
    (supertoken : String) : Request :=
  { method := .GET
    url := joinUrl b.basket_url "/news/debug-user/"
    query := [("email", email), ("supertoken", supertoken)]
    form := [] }

/-- `Basket::debug_user`: returns the envelope's `data` on `Ok`. -/
def Basket.debugUser (b : Basket) (email : String) (supertoken : String)
    (transport : Request → HttpOutcome) : Except BasketFailure Json :=
  handleResponse (fun r => r.data)
    (transport (b.debugUserRequest email supertoken))

/-- The request `Basket::lookup_user` builds: GET `/news/lookup-user/`
with `email` and `api-key` query parameters. -/
def Basket.lookupUserRequest (b : Basket) (email : String) : Request :=
  { method := .GET
    url := joinUrl b.basket_url "/news/lookup-user/"
    query := [("email", email), ("api-key", b.api_key)]
    form := [] }

/-- `Basket::lookup_user`: returns the envelope's `data` on `Ok`. -/
def Basket.lookupUser (b : Basket) (email : String)
    (transport : Request → HttpOutcome) : Except BasketFailure Json :=
  handleResponse (fun r => r.data) (transport (b.lookupUserRequest email))

/-- The request `Basket::recover` builds: POST `/news/recover/` with the
`Recover` form containing only `email`. -/
def Basket.recoverRequest (b : Basket) (email : String) : Request :=
  { method := .POST
    url := joinUrl b.basket_url "/news/recover/"
    query := []
    form := [("email", email)] }

/-- `Basket::recover`. -/
def Basket.recover (b : Basket) (email : String)
    (transport : Request → HttpOutcome) : Except BasketFailure Unit :=
  handleResponse (fun _ => ()) (transport (b.recoverRequest email))

/-- The per-operation behavioral contract of §4.2/§4.3 of the spec,
stated over the operation's result, its success projection and the
transport outcome for its request: an `Ok`-status envelope yields
success (unit for writes, `data` for reads); an `Error`-status envelope
yields a domain failure wrapping the envelope; a failed send yields a
transport failure wrapping it; a body that is not JSON or not a valid
envelope yields a decode failure. -/
def OpContract {α : Type} (result : Except BasketFailure α)
    (onOk : ApiResponse → α) (o : HttpOutcome) : Prop :=
  (∀ j r, o = .response (some j) → decodeApiResponse j = some r →
      (r.status = Status.Ok → result = .ok (onOk r)) ∧
      (r.status = Status.Error → result = .error (.domain r))) ∧
  (∀ m, o = .transportFailure m → result = .error (.transport m)) ∧
  (o = .response none → result = .error .decode) ∧
  (∀ j, o = .response (some j) → decodeApiResponse j = none →
      result = .error .decode)

/-- A concrete client instance (used to instantiate theorems). -/
def basketA : Basket := ⟨"key-one", ⟨"https", "basket.example", "/"⟩⟩

/-- A second client differing from `basketA` only in its API key. -/
def basketB : Basket := ⟨"key-two", ⟨"https", "basket.example", "/"⟩⟩

/-- The response body `{"status":"ok"}`. -/
def okBody : Json := Json.obj [("status", Json.str "ok")]

/-- The response body `{"status":"error","desc":"Token not found"}`. -/
def errBody : Json :=
  Json.obj [("status", Json.str "error"), ("desc", Json.str "Token not found")]

/-- The `Error`-status envelope `errBody` decodes to. -/
def errEnvelope : ApiResponse :=
  ⟨Status.Error, Json.obj [("desc", Json.str "Token not found")]⟩

/-- A transport oracle that always answers with the given JSON body. -/
def constOracle (j : Json) : Request → HttpOutcome :=
  fun _ => .response (some j)

theorem handleResponse_okCase {α : Type} (f : ApiResponse → α) (j : Json)
    (r : ApiResponse) (hd : decodeApiResponse j = some r)
    (hs : r.status = Status.Ok) :
    handleResponse f (.response (some j)) = .ok (f r) := by
  simp [handleResponse, hd, hs]

theorem handleResponse_domainCase {α : Type} (f : ApiResponse → α) (j : Json)
    (r : ApiResponse) (hd : decodeApiResponse j = some r)
    (hs : r.status = Status.Error) :
    handleResponse f (.response (some j)) = .error (.domain r) := by
  simp [handleResponse, hd, hs]

theorem handleResponse_decodeCase {α : Type} (f : ApiResponse → α) (j : Json)
    (hd : decodeApiResponse j = none) :
    handleResponse f (.response (some j)) = .error .decode := by
  simp [handleResponse, hd]

theorem handleResponse_meets_contract {α : Type} (f : ApiResponse → α)
    (o : HttpOutcome) : OpContract (handleResponse f o) f o := by
  refine ⟨?_, ?_, ?_, ?_⟩
  · intro j r hj hd
    subst hj
    exact ⟨fun hs => handleResponse_okCase f j r hd hs,
      fun hs => handleResponse_domainCase f j r hd hs⟩
  · intro m hm
    subst hm
    rfl
  · intro h
    subst h
    rfl
  · intro j hj hd
    subst hj
    exact handleResponse_decodeCase f j hd

theorem render_of_error_status (r : ApiResponse)
    (hs : r.status = Status.Error) : r.render = "error" := by
  simp [ApiResponse.render, hs, Status.render]

/-- C1 counterexample: the body
`{"status":"error","desc":"Token not found"}` decodes to an
`Error`-status envelope with a non-null payload, yet its textual
rendering is the literal word `error`, not the compact JSON of the
payload — `Display for ApiResponse` only renders the payload for
`Ok`-status envelopes. -/
theorem error_envelope_rendering_cex :
    decodeApiResponse errBody = some errEnvelope ∧
    errEnvelope.status = Status.Error ∧
    errEnvelope.data.isNull = false ∧
    errEnvelope.render = "error" ∧
    errEnvelope.render ≠ errEnvelope.data.compact := by
  refine ⟨rfl, rfl, rfl, rfl, ?_⟩
  decide

/-- C1 (amended): every decoded envelope with status `Error` makes each
operation return a domain failure wrapping the envelope, and the
envelope's textual rendering is always the literal word `error`,
whether or not the payload is null. -/
theorem error_envelope_yields_domain_failure
    (b : Basket) (t : Request → HttpOutcome) (j : Json) (r : ApiResponse)
    (hd : decodeApiResponse j = some r) (hs : r.status = Status.Error) :
    r.render = "error" ∧
    (∀ e ns o, t (b.subscribeRequest e ns o) = .response (some j) →
        b.subscribe e ns o t = .error (.domain r)) ∧
    (∀ e ns o, t (b.subscribePrivateRequest e ns o) = .response (some j) →
        b.subscribePrivate e ns o t = .error (.domain r)) ∧
    (∀ tok ns yn, t (b.unsubscribeRequest tok ns yn) = .response (some j) →
        b.unsubscribe tok ns yn t = .error (.domain r)) ∧
    (∀ tok, t (b.getUserRequest tok) = .response (some j) →
        b.getUser tok t = .error (.domain r)) ∧
    (∀ e tok uo, t (b.updateUserRequest e tok uo) = .response (some j) →
        b.updateUser e tok uo t = .error (.domain r)) ∧
    (t b.newslettersRequest = .response (some j) →
        b.newsletters t = .error (.domain r)) ∧
    (∀ e st, t (b.debugUserRequest e st) = .response (some j) →
        b.debugUser e st t = .error (.domain r)) ∧
    (∀ e, t (b.lookupUserRequest e) = .response (some j) →
        b.lookupUser e t = .error (.domain r)) ∧
    (∀ e, t (b.recoverRequest e) = .response (some j) →
        b.recover e t = .error (.domain r)) := by
  refine ⟨render_of_error_status r hs, ?_, ?_, ?_, ?_, ?_, ?_, ?_, ?_, ?_⟩
  · intro e ns o h
    simp only [Basket.subscribe, h]
    exact handleResponse_domainCase _ j r hd hs
  · intro e ns o h
    simp only [Basket.subscribePrivate, h]
    exact handleResponse_domainCase _ j r hd hs
  · intro tok ns yn h
    simp only [Basket.unsubscribe, h]
    exact handleResponse_domainCase _ j r hd hs
  · intro tok h
    simp only [Basket.getUser, h]
    exact handleResponse_domainCase _ j r hd hs
  · intro e tok uo h
    simp only [Basket.updateUser, h]
    exact handleResponse_domainCase _ j r hd hs
  · intro h
    simp only [Basket.newsletters, h]
    exact handleResponse_domainCase _ j r hd hs
  · intro e st h
    simp only [Basket.debugUser, h]
    exact handleResponse_domainCase _ j r hd hs
  · intro e h
    simp only [Basket.lookupUser, h]
    exact handleResponse_domainCase _ j r hd hs
  · intro e h
    simp only [Basket.recover, h]
    exact handleResponse_domainCase _ j r hd hs

/-- C1 witness: instantiating the amended theorem on the concrete error
body: `get_user` returns the domain failure and the envelope renders as
`error`. -/
theorem error_envelope_yields_domain_failure_witness :
    errEnvelope.render = "error" ∧
    basketA.getUser "bad-token" (constOracle errBody) =
      .error (.domain errEnvelope) := by
  have h := error_envelope_yields_domain_failure basketA (constOracle errBody)
    errBody errEnvelope rfl rfl
  exact ⟨h.1, h.2.2.2.2.1 "bad-token" rfl⟩

/-- C2: every operation meets the envelope contract: success (unit for
the five write operations, the `data` payload for the four read
operations) on an `Ok`-status envelope, a domain failure wrapping the
envelope on `Error` status, and a transport/decode failure when the
HTTP call fails or the body does not parse to an envelope. -/
theorem client_operation_contract :
    (∀ (b : Basket) (e : String) (ns : List String)
        (o : Option SubscribeOpts) (t : Request → HttpOutcome),
        OpContract (b.subscribe e ns o t) (fun _ => ())
          (t (b.subscribeRequest e ns o))) ∧
    (∀ (b : Basket) (e : String) (ns : List String)
        (o : Option SubscribeOpts) (t : Request → HttpOutcome),
        OpContract (b.subscribePrivate e ns o t) (fun _ => ())
          (t (b.subscribePrivateRequest e ns o))) ∧
    (∀ (b : Basket) (tok : String) (ns : List String) (yn : YesNo)
        (t : Request → HttpOutcome),
        OpContract (b.unsubscribe tok ns yn t) (fun _ => ())
          (t (b.unsubscribeRequest tok ns yn))) ∧
    (∀ (b : Basket) (tok : String) (t : Request → HttpOutcome),
        OpContract (b.getUser tok t) (fun r => r.data)
          (t (b.getUserRequest tok))) ∧
    (∀ (b : Basket) (e tok : String) (uo : Option UpdateUserOpts)
        (t : Request → HttpOutcome),
        OpContract (b.updateUser e tok uo t) (fun _ => ())
          (t (b.updateUserRequest e tok uo))) ∧
    (∀ (b : Basket) (t : Request → HttpOutcome),
        OpContract (b.newsletters t) (fun r => r.data)
          (t b.newslettersRequest)) ∧
    (∀ (b : Basket) (e st : String) (t : Request → HttpOutcome),
        OpContract (b.debugUser e st t) (fun r => r.data)
          (t (b.debugUserRequest e st))) ∧
    (∀ (b : Basket) (e : String) (t : Request → HttpOutcome),
        OpContract (b.lookupUser e t) (fun r => r.data)
          (t (b.lookupUserRequest e))) ∧
    (∀ (b : Basket) (e : String) (t : Request → HttpOutcome),
        OpContract (b.recover e t) (fun _ => ())
          (t (b.recoverRequest e))) :=
  ⟨fun _ _ _ _ _ => handleResponse_meets_contract _ _,
   fun _ _ _ _ _ => handleResponse_meets_contract _ _,
   fun _ _ _ _ _ => handleResponse_meets_contract _ _,
   fun _ _ _ => handleResponse_meets_contract _ _,
   fun _ _ _ _ _ => handleResponse_meets_contract _ _,
   fun _ _ => handleResponse_meets_contract _ _,
   fun _ _ _ _ => handleResponse_meets_contract _ _,
   fun _ _ _ => handleResponse_meets_contract _ _,
   fun _ _ _ => handleResponse_meets_contract _ _⟩

/-- C2 witness: on the concrete body `{"status":"ok"}`, the write
operation `subscribe` returns unit and the read operation `get_user`
returns the (empty-object) payload; on a failed send, `subscribe`
returns the wrapped transport failure. -/
theorem client_operation_contract_witness :
    basketA.subscribe "x@example.com" ["news1", "news2"] none
      (constOracle okBody) = .ok () ∧
    basketA.getUser "tok" (constOracle okBody) = .ok (Json.obj []) ∧
    basketA.subscribe "x@example.com" ["news1"] none
      (fun _ => .transportFailure "refused") =
      .error (.transport "refused") := by
  refine ⟨?_, ?_, ?_⟩
  · exact ((client_operation_contract.1 basketA "x@example.com"
      ["news1", "news2"] none (constOracle okBody)).1 okBody
      ⟨Status.Ok, Json.obj []⟩ rfl rfl).1 rfl
  · exact ((client_operation_contract.2.2.2.1 basketA "tok"
      (constOracle okBody)).1 okBody ⟨Status.Ok, Json.obj []⟩ rfl rfl).1 rfl
  · exact (client_operation_contract.1 basketA "x@example.com" ["news1"]
      none (fun _ => .transportFailure "refused")).2.1 "refused" rfl

theorem decodeStatus_none_of_invalid (v : Json)
    (h1 : v ≠ Json.str "ok") (h2 : v ≠ Json.str "error") :
    decodeStatus v = none := by
  cases v with
  | str s =>
      have hs1 : s ≠ "ok" := fun e => h1 (by rw [e])
      have hs2 : s ≠ "error" := fun e => h2 (by rw [e])
      simp [decodeStatus, hs1, hs2]
  | null => rfl
  | bool b => rfl
  | num n => rfl
  | arr xs => rfl
  | obj kvs => rfl

/-- C3: a JSON object body that is missing the `status` member, or whose
`status` value is anything other than the strings `ok` / `error`, fails
envelope decoding, and every operation receiving such a body returns
the decode failure — never a domain failure. -/
theorem invalid_status_is_decode_failure
    (kvs : List (String × Json))
    (h : ∀ v, kvs.lookup "status" = some v →
        v ≠ Json.str "ok" ∧ v ≠ Json.str "error") :
    decodeApiResponse (Json.obj kvs) = none ∧
    (∀ (b : Basket) (t : Request → HttpOutcome),
      (∀ e ns o, t (b.subscribeRequest e ns o) =
          .response (some (Json.obj kvs)) →
          b.subscribe e ns o t = .error .decode) ∧
      (∀ e ns o, t (b.subscribePrivateRequest e ns o) =
          .response (some (Json.obj kvs)) →
          b.subscribePrivate e ns o t = .error .decode) ∧
      (∀ tok ns yn, t (b.unsubscribeRequest tok ns yn) =
          .response (some (Json.obj kvs)) →
          b.unsubscribe tok ns yn t = .error .decode) ∧
      (∀ tok, t (b.getUserRequest tok) = .response (some (Json.obj kvs)) →
          b.getUser tok t = .error .decode) ∧
      (∀ e tok uo, t (b.updateUserRequest e tok uo) =
          .response (some (Json.obj kvs)) →
          b.updateUser e tok uo t = .error .decode) ∧
      (t b.newslettersRequest = .response (some (Json.obj kvs)) →
          b.newsletters t = .error .decode) ∧
      (∀ e st, t (b.debugUserRequest e st) =
          .response (some (Json.obj kvs)) →
          b.debugUser e st t = .error .decode) ∧
      (∀ e, t (b.lookupUserRequest e) = .response (some (Json.obj kvs)) →
          b.lookupUser e t = .error .decode) ∧
      (∀ e, t (b.recoverRequest e) = .response (some (Json.obj kvs)) →
          b.recover e t = .error .decode)) := by
  have hdec : decodeApiResponse (Json.obj kvs) = none := by
    cases hl : kvs.lookup "status" with
    | none => simp [decodeApiResponse, hl]
    | some v =>
        have hv := h v hl
        simp [decodeApiResponse, hl,
          decodeStatus_none_of_invalid v hv.1 hv.2]
  refine ⟨hdec, ?_⟩
  intro b t
  refine ⟨?_, ?_, ?_, ?_, ?_, ?_, ?_, ?_, ?_⟩
  · intro e ns o hh
    simp only [Basket.subscribe, hh]
    exact handleResponse_decodeCase _ _ hdec
  · intro e ns o hh
    simp only [Basket.subscribePrivate, hh]
    exact handleResponse_decodeCase _ _ hdec
  · intro tok ns yn hh
    simp only [Basket.unsubscribe, hh]
    exact handleResponse_decodeCase _ _ hdec
  · intro tok hh
    simp only [Basket.getUser, hh]
    exact handleResponse_decodeCase _ _ hdec
  · intro e tok uo hh
    simp only [Basket.updateUser, hh]
    exact handleResponse_decodeCase _ _ hdec
  · intro hh
    simp only [Basket.newsletters, hh]
    exact handleResponse_decodeCase _ _ hdec
  · intro e st hh
    simp only [Basket.debugUser, hh]
    exact handleResponse_decodeCase _ _ hdec
  · intro e hh
    simp only [Basket.lookupUser, hh]
    exact handleResponse_decodeCase _ _ hdec
  · intro e hh
    simp only [Basket.recover, hh]
    exact handleResponse_decodeCase _ _ hdec

/-- C3 witness: the body `{"status":"OK"}` (wrong case) fails envelope
decoding and makes `get_user` return the decode failure. -/
theorem invalid_status_is_decode_failure_witness :
    decodeApiResponse (Json.obj [("status", Json.str "OK")]) = none ∧
    basketA.getUser "tok"
      (constOracle (Json.obj [("status", Json.str "OK")])) =
      .error .decode := by
  have hyp : ∀ v,
      List.lookup "status" [("status", Json.str "OK")] = some v →
      v ≠ Json.str "ok" ∧ v ≠ Json.str "error" := by
    intro v hv
    have hv2 : some (Json.str "OK") = some v := by simpa using hv
    cases hv2
    constructor
    · intro hh
      simp at hh
    · intro hh
      simp at hh
  have h := invalid_status_is_decode_failure [("status", Json.str "OK")] hyp
  exact ⟨h.1, (h.2 basketA _).2.2.2.1 "tok" rfl⟩

/-- C4: with no options (`None`, or the all-unset options bag), the
subscribe form body contains exactly the `email` and `newsletters`
fields; with `country` set and every other option unset, it contains
exactly those two plus one `country` field. -/
theorem subscribe_form_fields_exact
    (b : Basket) (e c : String) (ns : List String) :
    (b.subscribeRequest e ns none).form =
      [("email", e), ("newsletters", String.intercalate "," ns)] ∧
    (b.subscribeRequest e ns (some {})).form =
      [("email", e), ("newsletters", String.intercalate "," ns)] ∧
    (b.subscribeRequest e ns (some { country := some c })).form =
      [("email", e), ("newsletters", String.intercalate "," ns),
        ("country", c)] := by
  refine ⟨rfl, rfl, rfl⟩

/-- C5: the requests built by `subscribe` and `unsubscribe` are
identical for two clients differing only in their API key — the public
operations never transmit the credential — whereas `subscribe_private`
and `lookup_user` attach the client's key as the `api-key` query
parameter. -/
theorem credential_isolation (b1 b2 : Basket)
    (hurl : b1.basket_url = b2.basket_url) :
    (∀ e ns o, b1.subscribeRequest e ns o = b2.subscribeRequest e ns o) ∧
    (∀ tok ns yn,
        b1.unsubscribeRequest tok ns yn = b2.unsubscribeRequest tok ns yn) ∧
    (∀ e ns o,
        ("api-key", b1.api_key) ∈ (b1.subscribePrivateRequest e ns o).query) ∧
    (∀ e, ("api-key", b1.api_key) ∈ (b1.lookupUserRequest e).query) := by
  refine ⟨?_, ?_, ?_, ?_⟩
  · intro e ns o
    simp [Basket.subscribeRequest, hurl]
  · intro tok ns yn
    simp [Basket.unsubscribeRequest, hurl]
  · intro e ns o
    simp [Basket.subscribePrivateRequest]
  · intro e
    simp [Basket.lookupUserRequest]

/-- C5 witness: two concrete clients sharing a base URL but holding
different keys build the same subscribe request, and the privileged
variant carries the key. -/
theorem credential_isolation_witness :
    basketA.subscribeRequest "x@example.com" ["news1"] none =
      basketB.subscribeRequest "x@example.com" ["news1"] none ∧
    ("api-key", basketA.api_key) ∈
      (basketA.subscribePrivateRequest "x@example.com" ["news1"] none).query := by
  have h := credential_isolation basketA basketB rfl
  exact ⟨h.1 "x@example.com" ["news1"] none,
    h.2.2.1 "x@example.com" ["news1"] none⟩

theorem mem_optField_keys (key k : String) (v : Option String) :
    key ∈ (optField k v).map Prod.fst ↔ (key = k ∧ v.isSome = true) := by
  cases v <;> simp [optField]

theorem isSome_optionMap {α β : Type} (f : α → β) (o : Option α) :
    (o.map f).isSome = o.isSome := by
  cases o <;> rfl

/-- C6: `update_user` transmits a partial-update form: its body is the
serialization of an `UpdateUser` payload whose email is always set from
the required argument, and a serialized `UpdateUser` payload contains
each field exactly when the corresponding option is present. -/
theorem update_user_partial_update :
    (∀ (b : Basket) (e tok : String) (uo : Option UpdateUserOpts),
        (b.updateUserRequest e tok uo).form =
          serializeUpdateUser ⟨some e, uo⟩) ∧
    (∀ u : UpdateUser,
      ("email" ∈ (serializeUpdateUser u).map Prod.fst ↔
          u.email.isSome = true) ∧
      ("format" ∈ (serializeUpdateUser u).map Prod.fst ↔
          (u.opts.bind UpdateUserOpts.format).isSome = true) ∧
      ("country" ∈ (serializeUpdateUser u).map Prod.fst ↔
          (u.opts.bind UpdateUserOpts.country).isSome = true) ∧
      ("lang" ∈ (serializeUpdateUser u).map Prod.fst ↔
          (u.opts.bind UpdateUserOpts.lang).isSome = true) ∧
      ("optin" ∈ (serializeUpdateUser u).map Prod.fst ↔
          (u.opts.bind UpdateUserOpts.optin).isSome = true) ∧
      ("newsletters" ∈ (serializeUpdateUser u).map Prod.fst ↔
          (u.opts.bind UpdateUserOpts.newsletters).isSome = true)) := by
  refine ⟨fun b e tok uo => rfl, ?_⟩
  rintro ⟨em, uo⟩
  rcases uo with _ | ⟨f, c, l, oi, nl⟩
  · cases em <;> simp [serializeUpdateUser, optField]
  · cases em <;> cases f <;> cases c <;> cases l <;> cases oi <;> cases nl <;>
      simp [serializeUpdateUser, serializeUpdateUserOpts, optField]

/-- C7: no operation ever produces the reserved validation error
`BasketError::InvalidTokenFormat`: for every client, every input and
every transport behavior, the result differs from it. -/
theorem invalid_token_format_never_raised
    (b : Basket) (t : Request → HttpOutcome) :
    (∀ e ns o, b.subscribe e ns o t ≠ .error .invalidTokenFormat) ∧
    (∀ e ns o, b.subscribePrivate e ns o t ≠ .error .invalidTokenFormat) ∧
    (∀ tok ns yn, b.unsubscribe tok ns yn t ≠ .error .invalidTokenFormat) ∧
    (∀ tok, b.getUser tok t ≠ .error .invalidTokenFormat) ∧
    (∀ e tok uo, b.updateUser e tok uo t ≠ .error .invalidTokenFormat) ∧
    (b.newsletters t ≠ .error .invalidTokenFormat) ∧
    (∀ e st, b.debugUser e st t ≠ .error .invalidTokenFormat) ∧
    (∀ e, b.lookupUser e t ≠ .error .invalidTokenFormat) ∧
    (∀ e, b.recover e t ≠ .error .invalidTokenFormat) := by
  have key : ∀ (α : Type) (f : ApiResponse → α) (o : HttpOutcome),
      handleResponse f o ≠ .error .invalidTokenFormat := by
    intro α f o
    cases o with
    | transportFailure m => simp [handleResponse]
    | response body =>
        cases body with
        | none => simp [handleResponse]
        | some j =>
            simp only [handleResponse]
            cases decodeApiResponse j with
            | none => simp
            | some r =>
                by_cases hs : r.status = Status.Ok <;> simp [hs]
  exact ⟨fun e ns o => key _ _ _, fun e ns o => key _ _ _,
    fun tok ns yn => key _ _ _, fun tok => key _ _ _,
    fun e tok uo => key _ _ _, key _ _ _,
    fun e st => key _ _ _, fun e => key _ _ _, fun e => key _ _ _⟩

/-- C7 witness: at a concrete client, input and transport, the result of
`unsubscribe` is not the token-format validation error. -/
theorem invalid_token_format_never_raised_witness :
    basketA.unsubscribe "tok" ["news1"] YesNo.Y (constOracle errBody) ≠
      .error .invalidTokenFormat :=
  (invalid_token_format_never_raised basketA (constOracle errBody)).2.2.1
    "tok" ["news1"] YesNo.Y

/-- C8: the wire value of the `newsletters` field of the subscribe and
unsubscribe forms is the identifier list joined with single commas and
no surrounding whitespace: `["a","b","c"]` gives `a,b,c`, a singleton
gives the identifier itself, and the empty list gives the empty
string. -/
theorem newsletters_comma_join
    (b : Basket) (e tok s : String) (ns : List String)
    (o : Option SubscribeOpts) (yn : YesNo) :
    (b.subscribeRequest e ns o).form.lookup "newsletters" =
      some (String.intercalate "," ns) ∧
    (b.unsubscribeRequest tok ns yn).form.lookup "newsletters" =
      some (String.intercalate "," ns) ∧
    String.intercalate "," ["a", "b", "c"] = "a,b,c" ∧
    String.intercalate "," [s] = s ∧
    String.intercalate "," ([] : List String) = "" := by
  refine ⟨?_, rfl, rfl, rfl, rfl⟩
  simp [Basket.subscribeRequest, serializeSubscribe, List.lookup]

/-- C9: `lookup_user` issues a GET to `/news/lookup-user/` resolved on
the base URL, attaching exactly the `email` and `api-key` query
parameters and no form body, and returns the envelope's `data` payload
on an `Ok`-status envelope. -/
theorem lookup_user_request_contract (b : Basket) (e : String) :
    (b.lookupUserRequest e).method = Method.GET ∧
    (b.lookupUserRequest e).url.path = "/news/lookup-user/" ∧
    (b.lookupUserRequest e).query = [("email", e), ("api-key", b.api_key)] ∧
    (b.lookupUserRequest e).form = [] ∧
    (∀ (t : Request → HttpOutcome) (j : Json) (r : ApiResponse),
        t (b.lookupUserRequest e) = .response (some j) →
        decodeApiResponse j = some r → r.status = Status.Ok →
        b.lookupUser e t = .ok r.data) := by
  refine ⟨rfl, rfl, rfl, rfl, ?_⟩
  intro t j r ht hd hs
  simp only [Basket.lookupUser, ht]
  exact handleResponse_okCase _ j r hd hs

/-- C9 witness: on the concrete body `{"status":"ok"}`, a concrete
`lookup_user` call succeeds with the (empty-object) payload, and its
request carries both query parameters. -/
theorem lookup_user_request_contract_witness :
    (basketA.lookupUserRequest "x@example.com").query =
      [("email", "x@example.com"), ("api-key", "key-one")] ∧
    basketA.lookupUser "x@example.com" (constOracle okBody) =
      .ok (Json.obj []) := by
  have h := lookup_user_request_contract basketA "x@example.com"
  exact ⟨h.2.2.1, h.2.2.2.2 (constOracle okBody) okBody
    ⟨Status.Ok, Json.obj []⟩ rfl rfl rfl⟩

theorem append_head_slash (a b : String) (h : a.data.head? = some '/') :
    (a ++ b).data.head? = some '/' := by
  rw [String.data_append]
  cases hc : a.data with
  | nil => rw [hc] at h; cases h
  | cons ch cs =>
      rw [hc] at h
      simpa using h

theorem joinUrl_absolute (base : Url) (p : String)
    (h : p.data.head? = some '/') :
    joinUrl base p = { base with path := p } := by
  simp [joinUrl, h]

/-- C10 counterexample: against the base URL
`https://basket.example/api/` (non-empty path prefix `/api/`), the
subscribe request URL is `https://basket.example/news/subscribe/`: the
absolute-path reference `/news/subscribe/` replaces the base path, so
the `/api` prefix is *not* kept. -/
theorem request_url_base_path_cex :
    ((Basket.mk "k" (Url.mk "https" "basket.example" "/api/")).subscribeRequest
        "x@example.com" ["news1"] none).url =
      Url.mk "https" "basket.example" "/news/subscribe/" ∧
    ("/api".data.isPrefixOf
      ((Basket.mk "k" (Url.mk "https" "basket.example" "/api/")).subscribeRequest
        "x@example.com" ["news1"] none).url.path.data) = false := by
  exact ⟨rfl, by decide⟩

/-- C10 (amended): each operation's request URL is its fixed (or
token-templated) path resolved against the base URL per RFC 3986; since
every such path is absolute, it replaces the base URL's entire path —
only the scheme and host of the base URL are kept, and any base path
prefix is dropped. -/
theorem request_url_resolution
    (b : Basket) (e tok st : String) (ns : List String)
    (o : Option SubscribeOpts) (uo : Option UpdateUserOpts) (yn : YesNo) :
    (b.subscribeRequest e ns o).url =
      ⟨b.basket_url.scheme, b.basket_url.host, "/news/subscribe/"⟩ ∧
    (b.subscribePrivateRequest e ns o).url =
      ⟨b.basket_url.scheme, b.basket_url.host, "/news/subscribe/"⟩ ∧
    (b.unsubscribeRequest tok ns yn).url =
      ⟨b.basket_url.scheme, b.basket_url.host,
        "/news/unsubscribe/" ++ tok ++ "/"⟩ ∧
    (b.getUserRequest tok).url =
      ⟨b.basket_url.scheme, b.basket_url.host, "/news/user/" ++ tok ++ "/"⟩ ∧
    (b.updateUserRequest e tok uo).url =
      ⟨b.basket_url.scheme, b.basket_url.host, "/news/user/" ++ tok ++ "/"⟩ ∧
    (b.newslettersRequest).url =
      ⟨b.basket_url.scheme, b.basket_url.host, "/news/newsletters/"⟩ ∧
    (b.debugUserRequest e st).url =
      ⟨b.basket_url.scheme, b.basket_url.host, "/news/debug-user/"⟩ ∧
    (b.lookupUserRequest e).url =
      ⟨b.basket_url.scheme, b.basket_url.host, "/news/lookup-user/"⟩ ∧
    (b.recoverRequest e).url =
      ⟨b.basket_url.scheme, b.basket_url.host, "/news/recover/"⟩ := by
  have htok1 : ("/news/unsubscribe/" ++ tok ++ "/").data.head? = some '/' :=
    append_head_slash _ _ (append_head_slash _ _ rfl)
  have htok2 : ("/news/user/" ++ tok ++ "/").data.head? = some '/' :=
    append_head_slash _ _ (append_head_slash _ _ rfl)
  refine ⟨?_, ?_, ?_, ?_, ?_, ?_, ?_, ?_, ?_⟩
  · exact joinUrl_absolute b.basket_url "/news/subscribe/" rfl
  · exact joinUrl_absolute b.basket_url "/news/subscribe/" rfl
  · exact joinUrl_absolute b.basket_url _ htok1
  · exact joinUrl_absolute b.basket_url _ htok2
  · exact joinUrl_absolute b.basket_url _ htok2
  · exact joinUrl_absolute b.basket_url "/news/newsletters/" rfl
  · exact joinUrl_absolute b.basket_url "/news/debug-user/" rfl
  · exact joinUrl_absolute b.basket_url "/news/lookup-user/" rfl
  · exact joinUrl_absolute b.basket_url "/news/recover/" rfl
